import Mathlib

/-!
Shallow embedding of the JetStream broker adapter (`broker/nats.go` and the
option constructors of the same package) for checking the natural-language
specification against the code.

Modelling conventions:
- The context-keyed option bag is modelled by explicit boolean / string fields
  (each `WithX` constructor stores one fact under a private key; the embedding
  stores the same fact in a named field of the options record).
- Calls into the underlying messaging client (dial, stream setup, publish,
  subscribe, acknowledge) are modelled by explicit action values emitted by the
  embedded functions, plus result parameters standing for whatever the client
  would return; the adapter code never inspects more of those results than the
  embedding does.
- Channel operations on the drain channel `closeCh` are modelled as explicit
  send/receive action values, since the claims are about which operation the
  code performs.
-/

namespace KratosNats

/-- The constant `defaultAddr` of nats.go (used only by `Address`). -/
def defaultAddr : String := "nats://127.0.0.1:5222"

/-- The underlying client constant `natsGo.DefaultURL`. -/
def natsDefaultURL : String := "nats://127.0.0.1:4222"

/-- Whether the first character list starts the second (the check
`strings.HasPrefix(addr, "nats://")` of nats.go:98, on the character lists of
the two strings). -/
def listStartsWith : List Char → List Char → Bool
  | [], _ => true
  | _ :: _, [] => false
  | p :: ps, c :: cs => (p = c) && listStartsWith ps cs

/-- The scheme check of nats.go:98 on a whole address string. -/
def hasNatsScheme (addr : String) : Bool :=
  listStartsWith "nats://".data addr.data

/-- Embedding of `setAddrs` (nats.go:91-107): skips empty entries, prepends the
scheme where it is missing, and when the cleaned list is empty falls back to
the client default URL. -/
def setAddrs (addrs : List String) : List String :=
  let cAddrs := addrs.filterMap (fun addr =>
    if addr.length = 0 then none
    else if hasNatsScheme addr then some addr
    else some ("nats://" ++ addr))
  if cAddrs.length = 0 then [natsDefaultURL] else cAddrs

/-- Result of the option-application step `setOption` (nats.go:109-149),
restricted to the fields the claims are about. -/
structure SetOptionResult where
  addrs : List String
  drain : Bool
  callbacksRegistered : Bool
  streamCfgName : String
deriving DecidableEq, Repr

/-- Embedding of `setOption` (nats.go:109-149). `suppliedAddrs` is
`b.options.Addrs` after applying the caller options, `natsServers` is
`b.natsOpts.Servers`. Note nats.go:133 calls `setAddrs` but discards its
return value, so the stored address list is left exactly as supplied
(or as the raw fallback `natsOpts.Servers` when empty). -/
def setOption (suppliedAddrs : List String) (natsServers : List String)
    (drainOptSet : Bool) (streamCfgOpt : Option String) : SetOptionResult :=
  let addrs := if suppliedAddrs.length = 0 then natsServers else suppliedAddrs
  let _ := setAddrs addrs
  { addrs := addrs
    drain := drainOptSet
    callbacksRegistered := drainOptSet
    streamCfgName := streamCfgOpt.getD "" }

/-- Connection status values of the underlying client that `Connect` inspects
(nats.go:159-168). -/
inductive ConnStatus where
  | disconnected
  | connected
  | closed
  | reconnecting
  | connecting
  | draining
deriving DecidableEq, Repr

/-- A connection handle of the underlying client, with the status it reports. -/
structure Conn where
  id : Nat
  status : ConnStatus
deriving DecidableEq, Repr

/-- The adapter state (the fields of `natsBroker` the claims are about).
`streamInfo` holds the identifier of the stream descriptor when present,
`subscribers` models the subscriber registry as a topic-keyed list. -/
structure BrokerState where
  connected : Bool
  conn : Option Conn
  streamInfo : Option Nat
  streamCfgName : String
  drain : Bool
  subscribers : List (String × Nat)
deriving DecidableEq, Repr

/-- Error classes returned by the adapter: its own "not connected" error
(nats.go:248 and nats.go:287), a codec marshal error, or an error surfaced
from the underlying client. -/
inductive BrokerErr where
  | notConnected
  | marshalErr (e : String)
  | natsErr (e : String)
deriving DecidableEq, Repr

/-- Network operations the publish path can perform. -/
inductive IOAction where
  | jsPublish (topic : String) (body : List Nat)
  | connPublish (topic : String) (body : List Nat)
deriving DecidableEq, Repr

/-- Outcome of the publish path: the returned error (none on success) and the
network operations performed. -/
structure PubOutcome where
  result : Option BrokerErr
  io : List IOAction
deriving DecidableEq, Repr

/-- Embedding of the lower-case `publish` (nats.go:243-281): under the read
lock, return the "not connected" error when `b.conn == nil`; otherwise publish
through the JetStream context when `b.streamInfo != nil`, else through the
plain connection. `pubErr` stands for the error the underlying publish call
returns. -/
def publish (st : BrokerState) (topic : String) (buf : List Nat)
    (pubErr : Option String) : PubOutcome :=
  match st.conn with
  | none => { result := some BrokerErr.notConnected, io := [] }
  | some _ =>
    { result := pubErr.map BrokerErr.natsErr
      io := [if st.streamInfo.isSome then IOAction.jsPublish topic buf
             else IOAction.connPublish topic buf] }

/-- Embedding of `Publish` (nats.go:234-241): marshal the message with the
configured codec, then call `publish`. -/
def Publish {α : Type} (codec : α → Except String (List Nat)) (st : BrokerState)
    (topic : String) (msg : α) (pubErr : Option String) : PubOutcome :=
  match codec msg with
  | Except.error e => { result := some (BrokerErr.marshalErr e), io := [] }
  | Except.ok buf => publish st topic buf pubErr

/-- The per-subscribe options record (broker.SubscribeOptions restricted to
the fields this adapter reads, with the context-stored delivery-position
markers as boolean fields). -/
structure SubscribeOptions where
  queue : String
  autoAck : Bool
  deliverAll : Bool
  deliverNew : Bool
  deliverLast : Bool
deriving DecidableEq, Repr

/-- The defaults `Subscribe` starts from (nats.go:291-294): auto-acknowledge
enabled, empty queue name, no delivery-position marker in the context. -/
def defaultSubscribeOptions : SubscribeOptions :=
  { queue := "", autoAck := true,
    deliverAll := false, deliverNew := false, deliverLast := false }

/-- Folding the caller-supplied subscribe options over the defaults
(nats.go:295-297). -/
def applySubscribeOptions (opts : List (SubscribeOptions → SubscribeOptions)) :
    SubscribeOptions :=
  opts.foldl (fun acc o => o acc) defaultSubscribeOptions

/-- Embedding of the option constructor `WithDeliverAll` (option file): stores
the deliver-all marker. -/
def withDeliverAll : SubscribeOptions → SubscribeOptions :=
  fun s => { s with deliverAll := true }

/-- Embedding of the option constructor `WithDeliverNew`. -/
def withDeliverNew : SubscribeOptions → SubscribeOptions :=
  fun s => { s with deliverNew := true }

/-- Embedding of the option constructor `WithDeliverLast`. -/
def withDeliverLast : SubscribeOptions → SubscribeOptions :=
  fun s => { s with deliverLast := true }

/-- Native JetStream subscribe options the adapter can construct
(nats.go:357-368). -/
inductive SubOpt where
  | deliverAll
  | deliverNew
  | deliverLast
deriving DecidableEq, Repr

/-- The native option list built from the delivery-position markers
(nats.go:357-368), in the order of the three `if` statements. -/
def streamSubOpts (o : SubscribeOptions) : List SubOpt :=
  let s : List SubOpt := []
  let s := if o.deliverAll then s ++ [SubOpt.deliverAll] else s
  let s := if o.deliverNew then s ++ [SubOpt.deliverNew] else s
  let s := if o.deliverLast then s ++ [SubOpt.deliverLast] else s
  s

/-- The underlying subscribe call `Subscribe` performs, with the arguments it
passes (nats.go:355-383). -/
inductive SubscribeCall where
  | jsQueueSubscribe (topic queue : String) (opts : List SubOpt)
  | jsSubscribe (topic : String) (opts : List SubOpt)
  | connQueueSubscribe (topic queue : String)
  | connSubscribe (topic : String)
deriving DecidableEq, Repr

/-- The subscribe-call dispatch of nats.go:355-383. On the stream path the
option list `streamSubOpts o` is built, but the empty-queue arm calls
`b.jsCtx.Subscribe(topic, fn)` passing no options (nats.go:374), so that arm
is embedded with the empty option list. -/
def subscribeDispatch (streamConfigured : Bool) (topic : String)
    (o : SubscribeOptions) : SubscribeCall :=
  if streamConfigured then
    let subOpts := streamSubOpts o
    if 0 < o.queue.length then
      SubscribeCall.jsQueueSubscribe topic o.queue subOpts
    else
      SubscribeCall.jsSubscribe topic []
  else
    if 0 < o.queue.length then
      SubscribeCall.connQueueSubscribe topic o.queue
    else
      SubscribeCall.connSubscribe topic

/-- Embedding of `Subscribe` (nats.go:283-395), up to the underlying call it
makes: the "not connected" guard fires first (nats.go:284-289), then the
options are folded over the defaults and the dispatch of nats.go:355-383 runs.
`subErr` stands for the error the underlying subscribe call returns. -/
def Subscribe (st : BrokerState) (topic : String)
    (opts : List (SubscribeOptions → SubscribeOptions))
    (subErr : Option String) : Except BrokerErr SubscribeCall :=
  match st.conn with
  | none => Except.error BrokerErr.notConnected
  | some _ =>
    let o := applySubscribeOptions opts
    match subErr with
    | some e => Except.error (BrokerErr.natsErr e)
    | none => Except.ok (subscribeDispatch st.streamInfo.isSome topic o)

/-- Observable events of the per-message callback `fn` (nats.go:305-350), in
execution order. -/
inductive CbEvent where
  | startSpan
  | errorHandler
  | userHandler
  | ack
  | logAckError
  | finishSpan
deriving DecidableEq, Repr

/-- The event trace of one run of the per-message callback (nats.go:305-350):
start the consumer span; on decode failure call the error handler when one is
configured and return (nats.go:327-334); otherwise run the user handler, on
handler error call the error handler (nats.go:336-342), acknowledge when
auto-acknowledge is on, logging an acknowledge failure (nats.go:343-347), and
finish the consumer span (nats.go:349). -/
def callbackEvents (decodeOk : Bool) (handlerErr : Bool) (autoAck : Bool)
    (ackErr : Bool) (ehConfigured : Bool) : List CbEvent :=
  [CbEvent.startSpan] ++
  (if !decodeOk then
    (if ehConfigured then [CbEvent.errorHandler] else [])
  else
    [CbEvent.userHandler] ++
    (if handlerErr then
      (if ehConfigured then [CbEvent.errorHandler] else []) else []) ++
    (if autoAck then
      [CbEvent.ack] ++ (if ackErr then [CbEvent.logAckError] else [])
    else []) ++
    [CbEvent.finishSpan])

/-- An operation on the unbuffered drain channel `closeCh`: sending an error
value (`none` models Go's nil error) or receiving. -/
inductive ChanOp where
  | send (v : Option String)
  | recv
deriving DecidableEq, Repr

/-- The `closeCh` operation `Disconnect` performs in the drain branch
(nats.go:220): it sends nil. -/
def disconnectCloseChOp : ChanOp := ChanOp.send none

/-- The `closeCh` operation of the closed-callback `onClose` (nats.go:397-399):
it sends nil. -/
def onCloseCloseChOp : ChanOp := ChanOp.send none

/-- The `closeCh` operation of the async-error callback `onAsyncError`
(nats.go:401-405): it sends the error when it is the drain-timeout error,
otherwise performs no channel operation. -/
def onAsyncErrorCloseChOp (isDrainTimeout : Bool) (e : String) : Option ChanOp :=
  if isDrainTimeout then some (ChanOp.send (some e)) else none

/-- The `closeCh` operation of the disconnected-error callback
`onDisconnectedError` (nats.go:407-409): it sends the error. -/
def onDisconnectedErrorCloseChOp (e : Option String) : ChanOp := ChanOp.send e

/-- The steps `Disconnect` performs, in order (nats.go:212-232). -/
inductive DisconnectAction where
  | connDrain
  | closeChSend
  | closeChRecv
  | subscribersClear
  | connClose
deriving DecidableEq, Repr

/-- The ordered action list of `Disconnect` (nats.go:212-232): in the drain
branch, drain the connection when present and send nil on `closeCh`; then
clear the subscriber registry and close the connection when present. -/
def disconnectActions (drain : Bool) (connPresent : Bool) :
    List DisconnectAction :=
  (if drain then
    (if connPresent then [DisconnectAction.connDrain] else []) ++
    [DisconnectAction.closeChSend]
  else []) ++
  [DisconnectAction.subscribersClear] ++
  (if connPresent then [DisconnectAction.connClose] else [])

/-- The state transformation of `Disconnect` (nats.go:212-232): the subscriber
registry is cleared and the connected flag dropped; the `conn` and
`streamInfo` fields are left untouched. -/
def Disconnect (st : BrokerState) : BrokerState × List DisconnectAction :=
  ({ st with subscribers := [], connected := false },
   disconnectActions st.drain st.conn.isSome)

/-- Operations `Connect` can perform against the underlying client. -/
inductive ConnectAction where
  | optsConnect
  | jetStreamSetup
deriving DecidableEq, Repr

/-- Outcome of `Connect`: the next adapter state, the operations performed and
the returned error (none on success). -/
structure ConnectOutcome where
  state : BrokerState
  actions : List ConnectAction
  err : Option BrokerErr
deriving DecidableEq, Repr

/-- Embedding of `Connect` (nats.go:151-210). When `b.connected` is already
set, return nil at once (nats.go:155-157). Otherwise read the status of the
existing connection, defaulting to CLOSED when there is none (nats.go:159-162);
for CONNECTED, RECONNECTING or CONNECTING just mark the adapter connected
(nats.go:164-167). In the remaining cases dial (`dial` stands for the result
of `opts.Connect()`); when a stream name is configured run the stream setup
(lookup, create when absent, update — abstracted into `streamSetup`, whose
value is the resulting stream descriptor). On a stream-setup error the opened
connection is not stored (the assignments at nats.go:206-207 are skipped by
the early return). -/
def Connect (st : BrokerState) (dial : Except String Conn)
    (streamSetup : Except String Nat) : ConnectOutcome :=
  if st.connected then
    { state := st, actions := [], err := none }
  else
    let status := match st.conn with
      | some c => c.status
      | none => ConnStatus.closed
    if status = ConnStatus.connected ∨ status = ConnStatus.reconnecting ∨
        status = ConnStatus.connecting then
      { state := { st with connected := true }, actions := [], err := none }
    else
      match dial with
      | Except.error e =>
        { state := st, actions := [ConnectAction.optsConnect],
          err := some (BrokerErr.natsErr e) }
      | Except.ok c =>
        if st.streamCfgName = "" then
          { state := { st with conn := some c, connected := true },
            actions := [ConnectAction.optsConnect], err := none }
        else
          match streamSetup with
          | Except.error e =>
            { state := st,
              actions := [ConnectAction.optsConnect,
                ConnectAction.jetStreamSetup],
              err := some (BrokerErr.natsErr e) }
          | Except.ok sinfo =>
            { state :=
                { st with conn := some c, connected := true,
                          streamInfo := some sinfo },
              actions := [ConnectAction.optsConnect,
                ConnectAction.jetStreamSetup],
              err := none }

/-- The adapter state right after `NewBroker` (nats.go:49-58): not connected,
no connection handle, no stream descriptor, empty registry. The drain flag and
stream name are whatever `setOption` later stores. -/
def newBrokerState (drain : Bool) (streamCfgName : String) : BrokerState :=
  { connected := false, conn := none, streamInfo := none,
    streamCfgName := streamCfgName, drain := drain, subscribers := [] }

/-- A connected adapter state with a configured stream, as reached by a
successful `Connect` under a stream configuration. -/
def streamConnState : BrokerState :=
  { connected := true, conn := some { id := 1, status := ConnStatus.connected },
    streamInfo := some 1, streamCfgName := "stream-1", drain := false,
    subscribers := [] }

/-- Applying subscribe options that leave the auto-acknowledge field alone
keeps it at its initial value. -/
theorem foldl_autoAck_preserved :
    ∀ (opts : List (SubscribeOptions → SubscribeOptions))
      (init : SubscribeOptions),
      (∀ o ∈ opts, ∀ s, (o s).autoAck = s.autoAck) →
      (opts.foldl (fun acc o => o acc) init).autoAck = init.autoAck := by
  intro opts
  induction opts with
  | nil => intro init h; rfl
  | cons o os ih =>
    intro init h
    simp only [List.foldl_cons]
    rw [ih (o init) (fun p hp s => h p (List.mem_cons_of_mem _ hp) s),
      h o (List.mem_cons_self _ _) init]

/-- C1: the claim says that after `setOption` every stored address carries the
"nats://" scheme and an empty supplied list defaults to the local endpoint.
The code computes that normalization in `setAddrs`, but nats.go:133 discards
the returned list, so the stored addresses keep their raw form: on the
supplied address "127.0.0.1:4222" the stored list is still the bare address
(while `setAddrs` would have produced the scheme-carrying one), and an empty
supplied list stays empty instead of defaulting to the client default URL. -/
theorem c1_setOption_discards_normalized_addrs :
    (setOption ["127.0.0.1:4222"] [] false none).addrs = ["127.0.0.1:4222"] ∧
    (setOption ["127.0.0.1:4222"] [] false none).addrs ≠
      setAddrs ["127.0.0.1:4222"] ∧
    setAddrs ["127.0.0.1:4222"] = ["nats://127.0.0.1:4222"] ∧
    (setOption [] [] false none).addrs = [] ∧
    setAddrs [] = [natsDefaultURL] := by
  exact ⟨rfl, by decide, by decide, rfl, rfl⟩

/-- C2: the claim says a supplied delivery-position option is passed to the
underlying stream subscribe call on both the queue-group path and the
single-consumer path. The option is indeed translated (`streamSubOpts`)
and passed on the queue-group path, but the single-consumer arm
(nats.go:374) calls the stream subscribe with no options at all, dropping
the translated option. -/
theorem c2_single_consumer_path_drops_deliver_option :
    Subscribe streamConnState "stream.1" [withDeliverAll] none =
      Except.ok (SubscribeCall.jsSubscribe "stream.1" []) ∧
    SubOpt.deliverAll ∉
      (match Subscribe streamConnState "stream.1" [withDeliverAll] none with
        | Except.ok (SubscribeCall.jsSubscribe _ opts) => opts
        | _ => [SubOpt.deliverAll]) ∧
    streamSubOpts (applySubscribeOptions [withDeliverAll]) =
      [SubOpt.deliverAll] ∧
    Subscribe streamConnState "stream.1"
      [withDeliverAll, fun s => { s with queue := "group-1" }] none =
      Except.ok (SubscribeCall.jsQueueSubscribe "stream.1" "group-1"
        [SubOpt.deliverAll]) := by
  exact ⟨rfl, by decide, rfl, rfl⟩

/-- C3: the claim says `Disconnect` under the drain option blocks until it
receives a completion/error signal sent by the lifecycle callbacks. In the
code every party only sends on the unbuffered channel: `Disconnect` itself
sends nil (nats.go:220), the closed callback sends nil, the async-error
callback sends the drain-timeout error, and the disconnected-error callback
sends its error; no receive operation exists anywhere, so the claimed
signal reception never occurs. -/
theorem c3_disconnect_sends_instead_of_receiving :
    disconnectCloseChOp = ChanOp.send none ∧
    disconnectCloseChOp ≠ ChanOp.recv ∧
    onCloseCloseChOp = ChanOp.send none ∧
    onAsyncErrorCloseChOp true "nats: drain timeout" =
      some (ChanOp.send (some "nats: drain timeout")) ∧
    onAsyncErrorCloseChOp false "other error" = none ∧
    onDisconnectedErrorCloseChOp (some "connection error") =
      ChanOp.send (some "connection error") ∧
    disconnectActions true true =
      [DisconnectAction.connDrain, DisconnectAction.closeChSend,
        DisconnectAction.subscribersClear, DisconnectAction.connClose] ∧
    DisconnectAction.closeChRecv ∉ disconnectActions true true := by
  exact ⟨rfl, by decide, rfl, rfl, rfl, rfl, rfl, by decide⟩

/-- C5 counterexample: on a message whose decode fails, the per-message
callback returns without the span-finishing step (nats.go:333 returns before
nats.go:349), so the consumer span is not ended on that path, refuting the
claim that every path ends the span. -/
theorem c5_counterexample :
    CbEvent.finishSpan ∉ callbackEvents false false true false true := by
  decide

/-- C5 amended: the callback ends the consumer span on every path where the
decode succeeds (handler error, acknowledge failure and auto-acknowledge off
included), the finish being its last step; on the decode-failure path it
returns without ending the span. -/
theorem c5_span_finished_exactly_on_decode_success :
    ∀ handlerErr autoAck ackErr ehConfigured : Bool,
      (callbackEvents true handlerErr autoAck ackErr ehConfigured).getLast? =
        some CbEvent.finishSpan ∧
      CbEvent.finishSpan ∉
        callbackEvents false handlerErr autoAck ackErr ehConfigured := by
  decide

/-- C6: on a decode failure the callback never runs the user handler and
never acknowledges (auto-acknowledge on or off), and it calls the configured
error handler exactly when one is configured. -/
theorem c6_decode_failure_skips_handler_and_ack :
    ∀ handlerErr autoAck ackErr ehConfigured : Bool,
      CbEvent.userHandler ∉
        callbackEvents false handlerErr autoAck ackErr ehConfigured ∧
      CbEvent.ack ∉
        callbackEvents false handlerErr autoAck ackErr ehConfigured ∧
      (CbEvent.errorHandler ∈
          callbackEvents false handlerErr autoAck ackErr ehConfigured ↔
        ehConfigured = true) := by
  decide

/-- C7: when the decode succeeds but the user handler errors, the callback
calls the error handler exactly when one is configured, still acknowledges
under auto-acknowledge, only logs an acknowledge failure, and runs to its
final span-finishing step regardless of the acknowledge outcome. -/
theorem c7_handler_error_still_acknowledges :
    ∀ ackErr ehConfigured : Bool,
      (CbEvent.errorHandler ∈ callbackEvents true true true ackErr ehConfigured
        ↔ ehConfigured = true) ∧
      CbEvent.ack ∈ callbackEvents true true true ackErr ehConfigured ∧
      (CbEvent.logAckError ∈ callbackEvents true true true ackErr ehConfigured
        ↔ ackErr = true) ∧
      (callbackEvents true true true ackErr ehConfigured).getLast? =
        some CbEvent.finishSpan := by
  decide

/-- C4: with no connection handle (as before any `Connect`), `Publish` of a
message the codec marshals returns the adapter's "not connected" error and
performs no network operation, the lower-level publish path likewise, and
`Subscribe` returns the "not connected" error. -/
theorem c4_not_connected_guard {α : Type} (codec : α → Except String (List Nat))
    (st : BrokerState) (topic topic2 : String) (msg : α) (buf : List Nat)
    (pubErr subErr : Option String)
    (opts : List (SubscribeOptions → SubscribeOptions))
    (hconn : st.conn = none) (hm : codec msg = Except.ok buf) :
    (Publish codec st topic msg pubErr).result =
      some BrokerErr.notConnected ∧
    (Publish codec st topic msg pubErr).io = [] ∧
    (publish st topic buf pubErr).result = some BrokerErr.notConnected ∧
    (publish st topic buf pubErr).io = [] ∧
    Subscribe st topic2 opts subErr = Except.error BrokerErr.notConnected := by
  simp [Publish, publish, Subscribe, hm, hconn]

/-- C4 witness: the guard at the concrete fresh adapter state. -/
theorem c4_not_connected_guard_witness :
    (Publish (fun _ : Unit => Except.ok ([] : List Nat))
        (newBrokerState false "") "topic.a" () none).result =
      some BrokerErr.notConnected ∧
    (Publish (fun _ : Unit => Except.ok ([] : List Nat))
        (newBrokerState false "") "topic.a" () none).io = [] ∧
    (publish (newBrokerState false "") "topic.a" [] none).result =
      some BrokerErr.notConnected ∧
    (publish (newBrokerState false "") "topic.a" [] none).io = [] ∧
    Subscribe (newBrokerState false "") "topic.b" [] none =
      Except.error BrokerErr.notConnected :=
  c4_not_connected_guard (fun _ : Unit => Except.ok ([] : List Nat))
    (newBrokerState false "") "topic.a" "topic.b" () [] none none [] rfl rfl

/-- C8: `Connect` on an adapter already marked connected returns no error,
performs no dial, and leaves the state unchanged; `Connect` while the
underlying connection reports a connected, reconnecting or connecting status
returns no error, performs no dial, and changes the state only by setting the
connected flag. -/
theorem c8_connect_idempotent (st : BrokerState) (dial : Except String Conn)
    (streamSetup : Except String Nat) :
    (st.connected = true →
      Connect st dial streamSetup =
        { state := st, actions := [], err := none }) ∧
    (∀ c : Conn, st.connected = false → st.conn = some c →
      (c.status = ConnStatus.connected ∨ c.status = ConnStatus.reconnecting ∨
        c.status = ConnStatus.connecting) →
      Connect st dial streamSetup =
        { state := { st with connected := true }, actions := [],
          err := none }) := by
  constructor
  · intro h
    simp [Connect, h]
  · intro c hnc hc hs
    rcases hs with h | h | h <;> simp [Connect, hnc, hc, h]

/-- C8 witness: the two idempotent branches at concrete states. -/
theorem c8_connect_idempotent_witness :
    Connect
        { connected := true, conn := none, streamInfo := none,
          streamCfgName := "", drain := false, subscribers := [] }
        (Except.error "dial refused") (Except.error "stream refused") =
      { state :=
          { connected := true, conn := none, streamInfo := none,
            streamCfgName := "", drain := false, subscribers := [] },
        actions := [], err := none } ∧
    Connect
        { connected := false,
          conn := some { id := 7, status := ConnStatus.reconnecting },
          streamInfo := none, streamCfgName := "", drain := false,
          subscribers := [] }
        (Except.error "dial refused") (Except.error "stream refused") =
      { state :=
          { connected := true,
            conn := some { id := 7, status := ConnStatus.reconnecting },
            streamInfo := none, streamCfgName := "", drain := false,
            subscribers := [] },
        actions := [], err := none } :=
  ⟨(c8_connect_idempotent _ _ _).1 rfl,
    (c8_connect_idempotent _ _ _).2
      { id := 7, status := ConnStatus.reconnecting } rfl rfl
      (Or.inr (Or.inl rfl))⟩

/-- C9: after a successful `Connect` from a fresh state, `Disconnect` leaves
the connection handle in place (it closes but never clears it), so a
subsequent publish or subscribe does not return the adapter's own
"not connected" error — any error is one surfaced from the underlying
client. -/
theorem c9_conn_handle_survives_disconnect (st0 : BrokerState)
    (dial : Except String Conn) (streamSetup : Except String Nat)
    (topic : String) (buf : List Nat) (pubErr subErr : Option String)
    (opts : List (SubscribeOptions → SubscribeOptions))
    (h0 : st0.connected = false) (h1 : st0.conn = none)
    (hok : (Connect st0 dial streamSetup).err = none) :
    ((Disconnect (Connect st0 dial streamSetup).state).1.conn).isSome =
      true ∧
    (publish (Disconnect (Connect st0 dial streamSetup).state).1
        topic buf pubErr).result ≠ some BrokerErr.notConnected ∧
    Subscribe (Disconnect (Connect st0 dial streamSetup).state).1
        topic opts subErr ≠ Except.error BrokerErr.notConnected := by
  have hconn : ((Connect st0 dial streamSetup).state.conn).isSome = true := by
    rcases dial with e | c
    · exfalso
      simp [Connect, h0, h1] at hok
    · by_cases hs : st0.streamCfgName = ""
      · simp [Connect, h0, h1, hs]
      · rcases streamSetup with e2 | sinfo
        · exfalso
          simp [Connect, h0, h1, hs] at hok
        · simp [Connect, h0, h1, hs]
  obtain ⟨c, hc⟩ := Option.isSome_iff_exists.mp hconn
  have hdc : (Disconnect (Connect st0 dial streamSetup).state).1.conn =
      some c := hc
  refine ⟨by simp [hdc], ?_, ?_⟩
  · simp only [publish, hdc]
    rcases pubErr with _ | e <;> simp
  · simp only [Subscribe, hdc]
    rcases subErr with _ | e <;> simp

/-- C9 witness: the connect/disconnect round trip at concrete inputs. -/
theorem c9_conn_handle_survives_disconnect_witness :
    ((Disconnect (Connect (newBrokerState false "")
        (Except.ok { id := 1, status := ConnStatus.connected })
        (Except.ok 0)).state).1.conn).isSome = true ∧
    (publish (Disconnect (Connect (newBrokerState false "")
        (Except.ok { id := 1, status := ConnStatus.connected })
        (Except.ok 0)).state).1 "topic.a" [] none).result ≠
      some BrokerErr.notConnected ∧
    Subscribe (Disconnect (Connect (newBrokerState false "")
        (Except.ok { id := 1, status := ConnStatus.connected })
        (Except.ok 0)).state).1 "topic.a" [] none ≠
      Except.error BrokerErr.notConnected :=
  c9_conn_handle_survives_disconnect (newBrokerState false "")
    (Except.ok { id := 1, status := ConnStatus.connected }) (Except.ok 0)
    "topic.a" [] none none [] rfl rfl rfl

/-- C10: when none of the supplied subscribe options touches the
auto-acknowledge field, the folded options keep the default auto-acknowledge
value true (nats.go:293), and hence every decode-success run of the callback
contains the acknowledge step. -/
theorem c10_autoAck_defaults_true
    (opts : List (SubscribeOptions → SubscribeOptions))
    (h : ∀ o ∈ opts, ∀ s : SubscribeOptions, (o s).autoAck = s.autoAck) :
    (applySubscribeOptions opts).autoAck = true ∧
    ∀ handlerErr ackErr ehConfigured : Bool,
      CbEvent.ack ∈ callbackEvents true handlerErr
        (applySubscribeOptions opts).autoAck ackErr ehConfigured := by
  have ha : (applySubscribeOptions opts).autoAck = true :=
    foldl_autoAck_preserved opts defaultSubscribeOptions h
  refine ⟨ha, ?_⟩
  rw [ha]
  decide

/-- C10 witness: the default holds under an option list that only sets the
queue name. -/
theorem c10_autoAck_defaults_true_witness :
    (applySubscribeOptions [fun s => { s with queue := "group-1" }]).autoAck =
      true ∧
    CbEvent.ack ∈ callbackEvents true false
      (applySubscribeOptions [fun s => { s with queue := "group-1" }]).autoAck
      false false := by
  have h := c10_autoAck_defaults_true [fun s => { s with queue := "group-1" }]
    (by
      intro o ho s
      simp only [List.mem_singleton] at ho
      subst ho
      rfl)
  exact ⟨h.1, h.2 false false false⟩

end KratosNats
